import Mathlib

/-!
Verification development for the TrueOrigin backend
(`src/backend/src`: `rate_limiter.rs`, `rewards.rs`, `icp.rs`, `api.rs`,
`models.rs`, `error.rs`).

The Rust code is shallowly embedded: each canister method becomes a pure
Lean function from an explicit `CanisterState` (the `thread_local!`
stable maps) and the ambient call data (`api::caller()`, `api::time()`,
the request) to its response and the successor state.  On the Internet
Computer a message executes atomically and `api::time()` is constant
during one message, so one `now : Nat` parameter per call is faithful.

Cryptography is modelled symbolically (ideal-cipher style):
* ECDSA-secp256k1 key pairs are indexed by a natural number `k`; the raw
  32 private scalar bytes and the SEC1-encoded public point are kept
  apart by the `KeyMaterial` type, because the two byte shapes are
  disjoint in the real library (`SigningKey::from_slice` accepts only
  32-byte scalars, `EncodedPoint::from_bytes` only 33/65-byte points).
* SHA-256 is an ideal collision-free hash, so a signature is modelled as
  the pair of the signing key index and the canonical message signed.
* The canonical message strings
  `format!("{product_id}_{serial_no}_{print_version}")` and
  `format!("{reseller_id}_{timestamp}_{context}")` are modelled by their
  component tuples (`CanonicalMsg`): principal texts and decimal
  numerals make the formatting injective, so the tuple determines the
  string and conversely.
-/

/-- `candid::Principal`, an opaque identifier; modelled as a natural
number, with `0` in the role of `Principal::anonymous()`. -/
abbrev Principal := Nat

/-- Modulus of `u32` arithmetic. -/
def u32Mod : Nat := 4294967296

/-- Wrapping `u32` addition (Rust `+` in release builds, as canisters are
compiled). -/
def u32add (a b : Nat) : Nat := (a + b) % u32Mod

/-- `u8::saturating_add(1)`, applied to `print_version` in
`generate_and_store_unique_code_for_serial`. -/
def u8SaturatingAddOne (v : Nat) : Nat := min (v + 1) 255

/-! ## Symbolic model of the cryptographic layer -/

/-- The canonical messages hashed and signed by the backend, modelled by
their components (see the header comment): `productMsg p s v` stands for
the string `"{p}_{s}_{v}"` built in
`generate_and_store_unique_code_for_serial` / `verify_product_v2` /
`redeem_product_reward`, and `resellerMsg r t c` for `"{r}_{t}_{c}"`
built in `generate_reseller_unique_code_v2` / `verify_reseller_v2`. -/
inductive CanonicalMsg where
  | productMsg (product_id serial_no : Principal) (print_version : Nat)
  | resellerMsg (reseller_id : Principal) (timestamp : Nat) (context : String)
deriving DecidableEq, Repr

/-- A well-formed ECDSA signature: the index of the signing key pair and
the canonical message whose SHA-256 digest was signed (ideal hash). -/
structure Sig where
  key : Nat
  msg : CanonicalMsg
deriving DecidableEq, Repr

/-- `ecdsa` signing: `SigningKey::sign` over the digest of `m`. -/
def ecdsaSign (sk : Nat) (m : CanonicalMsg) : Sig := ⟨sk, m⟩

/-- `VerifyingKey::verify`: succeeds exactly when the signature was made
by the key pair whose public half is `pk` over the digest of `m`. -/
def ecdsaVerify (pk : Nat) (m : CanonicalMsg) (s : Sig) : Bool :=
  decide (s.key = pk ∧ s.msg = m)

/-- Contents of a hex `String` holding key material.
`scalarBytes k` is `hex::encode(SigningKey::to_bytes())` of key pair `k`
(32 bytes); `pointBytes k` is
`hex::encode(VerifyingKey::to_encoded_point(false))` of key pair `k`
(65 bytes); `invalidHex` is a string on which `hex::decode` fails;
`otherBytes` decodes but is neither a valid scalar nor a valid SEC1
point. -/
inductive KeyMaterial where
  | scalarBytes (k : Nat)
  | pointBytes (k : Nat)
  | invalidHex
  | otherBytes
deriving DecidableEq, Repr

/-- `hex::decode` succeeds on the string. -/
def KeyMaterial.hexDecodes : KeyMaterial → Bool
  | .invalidHex => false
  | _ => true

/-- `SigningKey::from_slice` on the decoded bytes: only the raw 32-byte
scalar parses. -/
def KeyMaterial.parseSigningKey : KeyMaterial → Option Nat
  | .scalarBytes k => some k
  | _ => none

/-- `EncodedPoint::from_bytes` followed by
`VerifyingKey::from_encoded_point` on the decoded bytes: only a SEC1
point parses (a 32-byte scalar has the wrong length for every SEC1
tag), and an honestly encoded point is on the curve. -/
def KeyMaterial.parseVerifyingKey : KeyMaterial → Option Nat
  | .pointBytes k => some k
  | _ => none

/-- Contents of a `unique_code` request string. `sigHex s` is
`hex::encode` of a well-formed signature `s`; `invalidHex` fails
`hex::decode`; `badSignatureBytes` decodes but `Signature::from_slice`
rejects it. -/
inductive CodeString where
  | sigHex (s : Sig)
  | invalidHex
  | badSignatureBytes
deriving DecidableEq, Repr

/-- `hex::decode` succeeds on the code string. -/
def CodeString.hexDecodes : CodeString → Bool
  | .invalidHex => false
  | _ => true

/-- `Signature::from_slice` on the decoded bytes. -/
def CodeString.parseSignature : CodeString → Option Sig
  | .sigHex s => some s
  | _ => none

/-! ## Data model (`models.rs`, `api.rs`, `error.rs`) -/

/-- `models.rs` `Metadata`. -/
structure Metadata where
  key : String
  value : String
deriving DecidableEq, Repr

/-- `error.rs` `ApiError`; the `ErrorDetails` payload is collapsed to its
`message` field (the `details` vector is always empty where the embedded
code constructs errors). -/
inductive ApiError where
  | NotFound (message : String)
  | Unauthorized (message : String)
  | InvalidInput (message : String)
  | InternalError (message : String)
  | AlreadyExists (message : String)
  | MalformedData (message : String)
  | ExternalApiError (message : String)
deriving DecidableEq, Repr

/-- `api.rs` `ApiResponse<T>`: always built through `ApiResponse::success`
(data set, error empty) or `ApiResponse::error` (error set, data empty),
so it is modelled as the corresponding sum. -/
inductive ApiResponse (α : Type) where
  | success (data : α)
  | error (err : ApiError)
deriving DecidableEq, Repr

/-- Rust `Result<T, ApiError>` as returned by the embedded helpers. -/
inductive RResult (α : Type) where
  | ok (val : α)
  | err (e : ApiError)
deriving DecidableEq, Repr

/-- `models.rs` `ProductVerificationStatus`. -/
inductive ProductVerificationStatus where
  | FirstVerification
  | MultipleVerification
  | Invalid
deriving DecidableEq, Repr

/-- `api.rs` `ResellerVerificationStatus`. -/
inductive ResellerVerificationStatus where
  | Success
  | InvalidCode
  | ExpiredCode
  | ReplayAttackDetected
  | ResellerNotFound
  | OrganizationNotFound
  | InternalError
deriving DecidableEq, Repr

/-- `models.rs` `Organization` (the `private_key` hex string is carried
as `KeyMaterial`). -/
structure Organization where
  id : Principal
  name : String
  description : String
  private_key : KeyMaterial
  metadata : List Metadata
  created_at : Nat
  created_by : Principal
  updated_at : Nat
  updated_by : Principal
deriving DecidableEq, Repr

/-- `models.rs` `OrganizationPublic`. -/
structure OrganizationPublic where
  id : Principal
  name : String
  description : String
  metadata : List Metadata
  created_at : Nat
  created_by : Principal
  updated_at : Nat
  updated_by : Principal
deriving DecidableEq, Repr

/-- `OrganizationPublic::from`. -/
def OrganizationPublic.from (org : Organization) : OrganizationPublic :=
  ⟨org.id, org.name, org.description, org.metadata, org.created_at,
   org.created_by, org.updated_at, org.updated_by⟩

/-- `models.rs` `Product` (the `public_key` hex string is carried as
`KeyMaterial`). -/
structure Product where
  id : Principal
  name : String
  org_id : Principal
  category : String
  description : String
  metadata : List Metadata
  public_key : KeyMaterial
  created_at : Nat
  created_by : Principal
  updated_at : Nat
  updated_by : Principal
deriving DecidableEq, Repr

/-- `models.rs` `ProductSerialNumber` (`print_version : u8` is a natural
kept below 256 by `u8SaturatingAddOne`). -/
structure ProductSerialNumber where
  product_id : Principal
  serial_no : Principal
  print_version : Nat
  metadata : List Metadata
  created_at : Nat
  created_by : Principal
  updated_at : Nat
  updated_by : Principal
deriving DecidableEq, Repr

/-- `ProductVerification` with the fields `icp.rs` populates
(`verify_product_v2` and `redeem_product_reward` read and write
`reward_claimed` and `reward_transaction_id` in addition to the fields
listed in `models.rs`). -/
structure ProductVerification where
  id : Principal
  product_id : Principal
  serial_no : Principal
  print_version : Nat
  metadata : List Metadata
  created_at : Nat
  created_by : Principal
  status : ProductVerificationStatus
  reward_claimed : Bool
  reward_transaction_id : Option String
deriving DecidableEq, Repr

/-- `models.rs` `Reseller`, restricted to the fields the embedded
operations read (`verify_reseller_v2` and
`generate_reseller_unique_code_v2` use only `org_id`, and return the
record opaquely). -/
structure Reseller where
  id : Principal
  user_id : Principal
  org_id : Principal
  name : String
  is_verified : Bool
  public_key : KeyMaterial
  date_joined : Nat
deriving DecidableEq, Repr

/-- `rate_limiter.rs` `RateLimitEntry`. -/
structure RateLimitEntry where
  principal_id : Principal
  product_id : Principal
  attempts : Nat
  window_start : Nat
  last_attempt : Nat
deriving DecidableEq, Repr

/-- `rate_limiter.rs` `RateLimitKey`. -/
structure RateLimitKey where
  user_id : Principal
  product_id : Principal
deriving DecidableEq, Repr

/-- `api.rs` `RateLimitInfo`. -/
structure RateLimitInfo where
  remaining_attempts : Nat
  reset_time : Nat
  current_window_start : Nat
deriving DecidableEq, Repr

/-- `rewards.rs` `UserRewards`. -/
structure UserRewards where
  user_id : Principal
  total_points : Nat
  verification_count : Nat
  first_verifications : Nat
  last_reward_time : Nat
  metadata : List Metadata
deriving DecidableEq, Repr

/-- `rewards.rs` `UserVerifiedProducts`. -/
structure UserVerifiedProducts where
  user_id : Principal
  verified_products : List Principal
deriving DecidableEq, Repr

/-- `api.rs` `VerificationRewards`. -/
structure VerificationRewards where
  points : Nat
  is_first_verification : Bool
  special_reward : Option String
  reward_description : Option String
deriving DecidableEq, Repr

/-! ## The stable maps

`StableBTreeMap` is modelled as an association list.  `get` looks the key
up; `insert` overwrites in place when the key is present (as the B-tree
does) and otherwise appends.  A fresh key really enters a B-tree at its
sorted position, but the embedded operations never observe the iteration
position of a key they inserted (the only iterated map,
`PRODUCT_SERIAL_NUMBERS`, is only ever updated at existing keys by the
embedded code), so the append is observation-equivalent. -/

/-- `StableBTreeMap::get`. -/
def pmGet {V : Type} (k : Principal) : List (Principal × V) → Option V
  | [] => none
  | (k', v) :: rest => if k = k' then some v else pmGet k rest

/-- `StableBTreeMap::insert`. -/
def pmInsert {V : Type} (k : Principal) (v : V) :
    List (Principal × V) → List (Principal × V)
  | [] => [(k, v)]
  | (k', v') :: rest =>
      if k = k' then (k, v) :: rest else (k', v') :: pmInsert k v rest

/-- `RATE_LIMITS.get`. -/
def rlGet (k : RateLimitKey) : List (RateLimitKey × RateLimitEntry) →
    Option RateLimitEntry
  | [] => none
  | (k', v) :: rest => if k = k' then some v else rlGet k rest

/-- `RATE_LIMITS.insert`. -/
def rlInsert (k : RateLimitKey) (v : RateLimitEntry) :
    List (RateLimitKey × RateLimitEntry) → List (RateLimitKey × RateLimitEntry)
  | [] => [(k, v)]
  | (k', v') :: rest =>
      if k = k' then (k, v) :: rest else (k', v') :: rlInsert k v rest

/-- The `thread_local!` stable collections touched by the embedded
operations, decoded: the per-product blobs of `PRODUCT_SERIAL_NUMBERS`
and `PRODUCT_VERIFICATIONS` are held as the lists their candid codec
round-trips through (`decode_*`/`encode_*` are mutually inverse). -/
structure CanisterState where
  organizations : List (Principal × Organization)
  products : List (Principal × Product)
  product_serial_numbers : List (Principal × List ProductSerialNumber)
  product_verifications : List (Principal × List ProductVerification)
  resellers : List (Principal × Reseller)
  rate_limits : List (RateLimitKey × RateLimitEntry)
  user_rewards : List (Principal × UserRewards)
  user_verified_products : List (Principal × UserVerifiedProducts)
  promotions : List (Principal × Metadata)
deriving DecidableEq, Repr

/-- `utils.rs` `generate_unique_principal`: the first 29 bytes of
`SHA-256("{principal}-{time}")` as a principal; modelled as an ideal
(injective) hash of the pair. -/
def generate_unique_principal (principal : Principal) (now : Nat) : Principal :=
  Nat.pair principal now

/-! ## `rate_limiter.rs` -/

/-- `MAX_ATTEMPTS_PER_WINDOW`. -/
def MAX_ATTEMPTS_PER_WINDOW : Nat := 5

/-- `WINDOW_DURATION_SECONDS` (`60 * 5`). -/
def WINDOW_DURATION_SECONDS : Nat := 300

/-- `rate_limiter.rs` `record_verification_attempt`, over the
`RATE_LIMITS` map.  Returns the info and the updated map, or the
rate-limited error (in which case the map is returned as it was: the
source returns before any `insert`). -/
def record_verification_attempt (rl : List (RateLimitKey × RateLimitEntry))
    (user_id product_id : Principal) (now : Nat) :
    RResult (RateLimitInfo × List (RateLimitKey × RateLimitEntry)) :=
  let key : RateLimitKey := ⟨user_id, product_id⟩
  let entry : RateLimitEntry :=
    match rlGet key rl with
    | some e =>
        if now > e.window_start + WINDOW_DURATION_SECONDS then
          { e with window_start := now, attempts := 0 }
        else e
    | none =>
        ⟨user_id, product_id, 0, now, 0⟩
  if entry.attempts ≥ MAX_ATTEMPTS_PER_WINDOW then
    .err (.InvalidInput ("Rate limit exceeded. Try again after " ++
      toString (entry.window_start + WINDOW_DURATION_SECONDS)))
  else
    let entry' := { entry with attempts := entry.attempts + 1, last_attempt := now }
    let rl' := rlInsert key entry' rl
    let remaining :=
      if entry'.attempts ≥ MAX_ATTEMPTS_PER_WINDOW then 0
      else MAX_ATTEMPTS_PER_WINDOW - entry'.attempts
    .ok (⟨remaining, entry'.window_start + WINDOW_DURATION_SECONDS,
          entry'.window_start⟩, rl')

/-- `rate_limiter.rs` `record_successful_verification`: refreshes
`last_attempt` when an entry exists, touches nothing else. -/
def record_successful_verification (rl : List (RateLimitKey × RateLimitEntry))
    (user_id product_id : Principal) (now : Nat) :
    List (RateLimitKey × RateLimitEntry) :=
  let key : RateLimitKey := ⟨user_id, product_id⟩
  match rlGet key rl with
  | some e => rlInsert key { e with last_attempt := now } rl
  | none => rl

/-! ## `rewards.rs` -/

/-- `FIRST_VERIFICATION_POINTS`. -/
def FIRST_VERIFICATION_POINTS : Nat := 100

/-- `MULTIPLE_VERIFICATION_POINTS`. -/
def MULTIPLE_VERIFICATION_POINTS : Nat := 10

/-- `SPECIAL_PROMOTION_POINTS`. -/
def SPECIAL_PROMOTION_POINTS : Nat := 50

/-- `rewards.rs` `is_first_verification_for_user`. -/
def is_first_verification_for_user (st : CanisterState)
    (user_id product_id : Principal) : Bool :=
  match pmGet user_id st.user_verified_products with
  | some uv => decide (product_id ∉ uv.verified_products)
  | none => true

/-- `rewards.rs` `record_product_verification`. -/
def record_product_verification (st : CanisterState)
    (user_id product_id : Principal) : CanisterState :=
  match pmGet user_id st.user_verified_products with
  | some uv =>
      if product_id ∈ uv.verified_products then st
      else
        let uv' := { uv with verified_products := uv.verified_products ++ [product_id] }
        { st with user_verified_products :=
            pmInsert user_id uv' st.user_verified_products }
  | none =>
      { st with user_verified_products :=
          pmInsert user_id ⟨user_id, [product_id]⟩ st.user_verified_products }

/-- `rewards.rs` `update_user_rewards` (the `u32` counters add with
wrap-around, as release-built Rust does). -/
def update_user_rewards (st : CanisterState) (user_id : Principal)
    (points : Nat) (is_first : Bool) (now : Nat) : CanisterState :=
  match pmGet user_id st.user_rewards with
  | some r =>
      let r' :=
        { r with
          total_points := u32add r.total_points points,
          verification_count := u32add r.verification_count 1,
          first_verifications :=
            if is_first then u32add r.first_verifications 1
            else r.first_verifications,
          last_reward_time := now }
      { st with user_rewards := pmInsert user_id r' st.user_rewards }
  | none =>
      let r' : UserRewards :=
        ⟨user_id, points, 1, if is_first then 1 else 0, now, []⟩
      { st with user_rewards := pmInsert user_id r' st.user_rewards }

/-- `rewards.rs` `get_special_promotion`. -/
def get_special_promotion (st : CanisterState) (product_id : Principal) :
    Option Metadata :=
  pmGet product_id st.promotions

/-- `rewards.rs` `calculate_verification_rewards`. -/
def calculate_verification_rewards (st : CanisterState)
    (user_id product_id : Principal) (status : ProductVerificationStatus)
    (now : Nat) : VerificationRewards × CanisterState :=
  let is_first := is_first_verification_for_user st user_id product_id
  let base_points :=
    match status with
    | .FirstVerification => FIRST_VERIFICATION_POINTS
    | .MultipleVerification => MULTIPLE_VERIFICATION_POINTS
    | .Invalid => 0
  let special_reward := get_special_promotion st product_id
  let promotion_points := if special_reward.isSome then SPECIAL_PROMOTION_POINTS else 0
  let st1 :=
    if status ≠ ProductVerificationStatus.Invalid then
      record_product_verification st user_id product_id
    else st
  let total_points := u32add base_points promotion_points
  let st2 :=
    if total_points > 0 then update_user_rewards st1 user_id total_points is_first now
    else st1
  (⟨total_points, is_first,
    special_reward.map (fun m => m.value),
    special_reward.map (fun m => "Special reward: " ++ m.value)⟩, st2)

/-! ## `icp.rs`: printing (code generation) -/

/-- `api.rs` `ProductUniqueCodeResultRecord`. -/
structure ProductUniqueCodeResultRecord where
  unique_code : CodeString
  print_version : Nat
  product_id : Principal
  serial_no : Principal
  created_at : Nat
deriving DecidableEq, Repr

/-- `sn_vec.iter().find(|sn| sn.serial_no == serial_no)`. -/
def findSerialInList (serial_no : Principal) :
    List ProductSerialNumber → Option ProductSerialNumber
  | [] => none
  | sn :: rest =>
      if sn.serial_no = serial_no then some sn else findSerialInList serial_no rest

/-- The scan of `PRODUCT_SERIAL_NUMBERS` performed at the start of
`verify_product_v2` and `redeem_product_reward`: the first product
whose serial list contains the serial, with the matching record. -/
def findSerialAcrossProducts
    (m : List (Principal × List ProductSerialNumber)) (serial_no : Principal) :
    Option (Principal × ProductSerialNumber) :=
  match m with
  | [] => none
  | (p_id, vec) :: rest =>
      match findSerialInList serial_no vec with
      | some sn => some (p_id, sn)
      | none => findSerialAcrossProducts rest serial_no

/-- `iter().position(|sn| sn.serial_no == serial_no)` together with the
element found there. -/
def findIdxAndSn (serial_no : Principal) :
    List ProductSerialNumber → Option (Nat × ProductSerialNumber)
  | [] => none
  | sn :: rest =>
      if sn.serial_no = serial_no then some (0, sn)
      else
        match findIdxAndSn serial_no rest with
        | some (i, s) => some (i + 1, s)
        | none => none

/-- `icp.rs` `generate_and_store_unique_code_for_serial`: increments the
serial's `print_version` (saturating `u8` add), persists the updated
list, then signs `"{product_id}_{serial_no}_{new_version}"` with the
organization's private key and hex-encodes the signature. -/
def generate_and_store_unique_code_for_serial (st : CanisterState)
    (product_id serial_no : Principal) (organization_private_key : KeyMaterial)
    (now : Nat) (caller : Principal) :
    RResult (ProductUniqueCodeResultRecord × CanisterState) :=
  match pmGet product_id st.product_serial_numbers with
  | none =>
      .err (.NotFound ("Product " ++ toString product_id ++
        " has no serial numbers recorded for printing"))
  | some product_sn_vec =>
    match findIdxAndSn serial_no product_sn_vec with
    | none =>
        .err (.NotFound ("Serial number " ++ toString serial_no ++
          " for product " ++ toString product_id ++ " not found for printing"))
    | some (sn_idx, sn) =>
      if organization_private_key.hexDecodes = false then
        .err (.InternalError
          "Malformed secret key for organization during code generation")
      else
        match organization_private_key.parseSigningKey with
        | none =>
            .err (.InternalError
              "Invalid secret key for organization during code generation")
        | some private_key =>
          let updated_sn :=
            { sn with
              print_version := u8SaturatingAddOne sn.print_version,
              updated_at := now,
              updated_by := caller }
          let vec' := product_sn_vec.set sn_idx updated_sn
          let st' :=
            { st with product_serial_numbers :=
                pmInsert product_id vec' st.product_serial_numbers }
          let msg := CanonicalMsg.productMsg product_id serial_no
            updated_sn.print_version
          let signature := ecdsaSign private_key msg
          .ok (⟨.sigHex signature, updated_sn.print_version,
                updated_sn.product_id, updated_sn.serial_no,
                updated_sn.created_at⟩, st')

/-- `icp.rs` `print_product_serial_number`. -/
def print_product_serial_number (st : CanisterState)
    (product_id serial_no : Principal) (now : Nat) (caller : Principal) :
    RResult (ProductUniqueCodeResultRecord × CanisterState) :=
  match pmGet product_id st.products with
  | none =>
      .err (.NotFound ("Product with ID " ++ toString product_id ++
        " not found for printing serial"))
  | some product =>
    match pmGet product.org_id st.organizations with
    | none =>
        .err (.NotFound ("Organization with ID " ++ toString product.org_id ++
          " not found for product " ++ toString product_id))
    | some organization =>
        generate_and_store_unique_code_for_serial st product_id serial_no
          organization.private_key now caller

/-! ## `icp.rs`: product verification -/

/-- `api.rs` `VerifyProductEnhancedRequest`. -/
structure VerifyProductEnhancedRequest where
  product_id : Principal
  serial_no : Principal
  print_version : Nat
  unique_code : CodeString
  metadata : List Metadata
  timestamp : Option Nat
  nonce : Option String
deriving DecidableEq, Repr

/-- `api.rs` `ProductVerificationEnhancedResponse`. -/
structure ProductVerificationEnhancedResponse where
  status : ProductVerificationStatus
  verification : Option ProductVerification
  rewards : Option VerificationRewards
  expiration : Option Nat
deriving DecidableEq, Repr

/-- `icp.rs` `verify_product_v2`.  The three `Malformed public key`
returns of the source (hex decode, `EncodedPoint`, `VerifyingKey`)
carry the same error and are reached exactly when
`parseVerifyingKey` is `none`, so they are a single branch here. -/
def verify_product_v2 (st : CanisterState)
    (request : VerifyProductEnhancedRequest) (caller : Principal) (now : Nat) :
    ApiResponse ProductVerificationEnhancedResponse × CanisterState :=
  match findSerialAcrossProducts st.product_serial_numbers request.serial_no with
  | none => (.error (.NotFound "Serial number not valid or not found"), st)
  | some (product_id, product_sn_record) =>
    match record_verification_attempt st.rate_limits caller product_id now with
    | .err e => (.error e, st)
    | .ok (_, rl') =>
      let st1 := { st with rate_limits := rl' }
      match pmGet product_id st1.products with
      | none =>
          (.error (.InternalError
            "Product data inconsistent: Product not found for existing serial number"),
           st1)
      | some product =>
        let print_version_from_storage := product_sn_record.print_version
        match product.public_key.parseVerifyingKey with
        | none => (.error (.InternalError "Malformed public key"), st1)
        | some public_key =>
          let msg := CanonicalMsg.productMsg product_id request.serial_no
            print_version_from_storage
          if request.unique_code.hexDecodes = false then
            (.error (.InvalidInput "Malformed unique code"), st1)
          else
            match request.unique_code.parseSignature with
            | none => (.error (.InvalidInput "Invalid signature format"), st1)
            | some signature =>
              if ecdsaVerify public_key msg signature = false then
                (.success ⟨.Invalid, none, none, none⟩, st1)
              else
                let verification_status :=
                  if is_first_verification_for_user st1 caller product_id then
                    ProductVerificationStatus.FirstVerification
                  else ProductVerificationStatus.MultipleVerification
                let res := calculate_verification_rewards st1 caller product_id
                  verification_status now
                let rewards_result := res.1
                let st2 := res.2
                let verification_id := generate_unique_principal 0 now
                let verification : ProductVerification :=
                  ⟨verification_id, product_id, request.serial_no,
                   print_version_from_storage, [], now, caller,
                   verification_status, false, none⟩
                let verification_vec :=
                  match pmGet product_id st2.product_verifications with
                  | some v => v
                  | none => []
                let pv' := pmInsert product_id (verification_vec ++ [verification])
                  st2.product_verifications
                let st3 := { st2 with product_verifications := pv' }
                let rl'' := record_successful_verification st3.rate_limits caller
                  product_id now
                let st4 := { st3 with rate_limits := rl'' }
                let expiration_time := now + 86400
                (.success ⟨verification_status, some verification,
                  some rewards_result, some expiration_time⟩, st4)

/-! ## `icp.rs`: reseller codes -/

/-- `UNIQUE_CODE_EXPIRATION_SECONDS`. -/
def UNIQUE_CODE_EXPIRATION_SECONDS : Nat := 300

/-- `api.rs` `VerifyResellerRequest`. -/
structure VerifyResellerRequest where
  reseller_id : Principal
  unique_code : CodeString
  timestamp : Nat
  context : Option String
deriving DecidableEq, Repr

/-- `api.rs` `ResellerVerificationResponse`. -/
structure ResellerVerificationResponse where
  status : ResellerVerificationStatus
  organization : Option OrganizationPublic
  reseller : Option Reseller
deriving DecidableEq, Repr

/-- `api.rs` `GenerateResellerUniqueCodeRequest`. -/
structure GenerateResellerUniqueCodeRequest where
  reseller_id : Principal
  context : Option String
deriving DecidableEq, Repr

/-- `api.rs` `ResellerUniqueCodeResponse`. -/
structure ResellerUniqueCodeResponse where
  unique_code : CodeString
  reseller_id : Principal
  timestamp : Nat
  context : Option String
deriving DecidableEq, Repr

/-- `icp.rs` `verify_reseller_v2` (a `#[query]`, so it never mutates
state).  Note that the source feeds `organization.private_key` — the hex
of the 32-byte private scalar — to `EncodedPoint::from_bytes` /
`VerifyingKey::from_encoded_point`; its three `InternalError` returns
(hex decode, encoded point, verifying key) are reached exactly when
`parseVerifyingKey organization.private_key` is `none` and are a single
branch here. -/
def verify_reseller_v2 (st : CanisterState) (request : VerifyResellerRequest)
    (now : Nat) : ApiResponse ResellerVerificationResponse :=
  let reseller_id := request.reseller_id
  let code_timestamp := request.timestamp
  let context_str := request.context.getD ""
  if now > code_timestamp + UNIQUE_CODE_EXPIRATION_SECONDS then
    .success ⟨.ExpiredCode, none, none⟩
  else if code_timestamp > now + 60 then
    .success ⟨.InvalidCode, none, none⟩
  else
    match pmGet reseller_id st.resellers with
    | none => .success ⟨.ResellerNotFound, none, none⟩
    | some reseller =>
      match pmGet reseller.org_id st.organizations with
      | none => .success ⟨.OrganizationNotFound, none, some reseller⟩
      | some organization =>
        match organization.private_key.parseVerifyingKey with
        | none =>
            .success ⟨.InternalError,
              some (OrganizationPublic.from organization), some reseller⟩
        | some public_key =>
          let msg := CanonicalMsg.resellerMsg reseller_id code_timestamp context_str
          if request.unique_code.hexDecodes = false then
            .success ⟨.InvalidCode,
              some (OrganizationPublic.from organization), some reseller⟩
          else
            match request.unique_code.parseSignature with
            | none =>
                .success ⟨.InvalidCode,
                  some (OrganizationPublic.from organization), some reseller⟩
            | some signature =>
              if ecdsaVerify public_key msg signature then
                .success ⟨.Success,
                  some (OrganizationPublic.from organization), some reseller⟩
              else
                .success ⟨.InvalidCode,
                  some (OrganizationPublic.from organization), some reseller⟩

/-- `icp.rs` `generate_reseller_unique_code_v2`: signs
`"{reseller_id}_{now}_{context}"` with the owning organization's private
key. -/
def generate_reseller_unique_code_v2 (st : CanisterState)
    (request : GenerateResellerUniqueCodeRequest) (now : Nat) :
    ApiResponse ResellerUniqueCodeResponse :=
  let reseller_id := request.reseller_id
  let context_str := request.context.getD ""
  match pmGet reseller_id st.resellers with
  | none =>
      .error (.NotFound ("Reseller with ID " ++ toString reseller_id ++
        " not found"))
  | some reseller =>
    match pmGet reseller.org_id st.organizations with
    | none =>
        .error (.NotFound ("Organization with ID " ++ toString reseller.org_id ++
          " not found for reseller " ++ toString reseller_id))
    | some org =>
      if org.private_key.hexDecodes = false then
        .error (.InternalError "Malformed secret key for organization")
      else
        match org.private_key.parseSigningKey with
        | none => .error (.InternalError "Malformed secret key for organization")
        | some private_key =>
          let msg := CanonicalMsg.resellerMsg reseller_id now context_str
          let signature := ecdsaSign private_key msg
          .success ⟨.sigHex signature, reseller_id, now, request.context⟩

/-! ## `icp.rs`: reward redemption -/

/-- `RedeemRewardRequest` as used by `redeem_product_reward` (imported
from `crate::api`; the snapshot's `api.rs` predates it, the fields are
those the function reads). -/
structure RedeemRewardRequest where
  serial_no : Principal
  unique_code : CodeString
  wallet_address : String
deriving DecidableEq, Repr

/-- `RedeemRewardResponse` as built by `redeem_product_reward`. -/
structure RedeemRewardResponse where
  success : Bool
  transaction_id : Option String
  message : String
deriving DecidableEq, Repr

/-- The search loop of `redeem_product_reward` step 2: the first
verification record with matching `created_by`, `serial_no` and
`print_version`, together with its index. -/
def findTargetVerification (caller serial_no : Principal) (print_version : Nat) :
    List ProductVerification → Option (Nat × ProductVerification)
  | [] => none
  | v :: rest =>
      if v.created_by = caller ∧ v.serial_no = serial_no ∧
          v.print_version = print_version then
        some (0, v)
      else
        match findTargetVerification caller serial_no print_version rest with
        | some (i, w) => some (i + 1, w)
        | none => none

/-- `icp.rs` `redeem_product_reward`. -/
def redeem_product_reward (st : CanisterState) (request : RedeemRewardRequest)
    (caller : Principal) (now : Nat) :
    ApiResponse RedeemRewardResponse × CanisterState :=
  match findSerialAcrossProducts st.product_serial_numbers request.serial_no with
  | none =>
      (.error (.InvalidInput "Serial number not found or invalid for redemption."),
       st)
  | some (product_id, product_sn_record) =>
    match pmGet product_id st.products with
    | none =>
        (.error (.InternalError
          "Product data inconsistent: Product not found for existing serial number during redemption."),
         st)
    | some product =>
      let print_version_from_storage := product_sn_record.print_version
      match product.public_key.parseVerifyingKey with
      | none =>
          (.error (.InternalError "Malformed public key during redemption."), st)
      | some public_key =>
        let msg := CanonicalMsg.productMsg product_id request.serial_no
          print_version_from_storage
        if request.unique_code.hexDecodes = false then
          (.error (.InvalidInput "Malformed unique code during redemption."), st)
        else
          match request.unique_code.parseSignature with
          | none =>
              (.error (.InvalidInput "Invalid signature format during redemption."),
               st)
          | some signature =>
            if ecdsaVerify public_key msg signature = false then
              (.error (.InvalidInput
                "Unique code verification failed during redemption attempt."), st)
            else
              let verification_vec :=
                match pmGet product_id st.product_verifications with
                | some v => v
                | none => []
              match findTargetVerification caller request.serial_no
                  print_version_from_storage verification_vec with
              | none =>
                  (.error (.NotFound
                    "No eligible verification record found for this redemption request."),
                   st)
              | some (verification_index, verification_to_update) =>
                if verification_to_update.reward_claimed then
                  (.success ⟨false, verification_to_update.reward_transaction_id,
                    "Reward for this verification has already been claimed."⟩, st)
                else if verification_to_update.status ≠
                    ProductVerificationStatus.FirstVerification then
                  (.success ⟨false, none,
                    "Reward can only be claimed for the first verification."⟩, st)
                else
                  let res := calculate_verification_rewards st caller product_id
                    verification_to_update.status now
                  let rewards := res.1
                  let st1 := res.2
                  if rewards.points = 0 then
                    let v' := { verification_to_update with reward_claimed := true }
                    let st2 :=
                      match pmGet product_id st1.product_verifications with
                      | some vec =>
                          if verification_index < vec.length then
                            let pv' := pmInsert product_id
                              (vec.set verification_index v')
                              st1.product_verifications
                            { st1 with product_verifications := pv' }
                          else st1
                      | none => st1
                    (.success ⟨false, none,
                      "No points were associated with this verification."⟩, st2)
                  else
                    let simulated_tx_id :=
                      "simulated-tx-" ++ toString verification_to_update.id
                    let v' :=
                      { verification_to_update with
                        reward_claimed := true,
                        reward_transaction_id := some simulated_tx_id }
                    let st2 :=
                      match pmGet product_id st1.product_verifications with
                      | some vec =>
                          match vec.get? verification_index with
                          | some w =>
                              if w.id = verification_to_update.id then
                                let pv' := pmInsert product_id
                                  (vec.set verification_index v')
                                  st1.product_verifications
                                { st1 with product_verifications := pv' }
                              else st1
                          | none => st1
                      | none => st1
                    (.success ⟨true, some simulated_tx_id,
                      "Successfully redeemed " ++ toString rewards.points ++
                        " points."⟩, st2)

/-! ## Generic facts about the map model -/

theorem pmGet_pmInsert_self {V : Type} (k : Principal) (v : V) :
    ∀ m : List (Principal × V), pmGet k (pmInsert k v m) = some v := by
  intro m
  induction m with
  | nil => simp [pmGet, pmInsert]
  | cons hd tl ih =>
      obtain ⟨k', v'⟩ := hd
      by_cases h : k = k'
      · simp [pmInsert, h, pmGet]
      · simp [pmInsert, h, pmGet, ih]

theorem rlGet_rlInsert_self (k : RateLimitKey) (v : RateLimitEntry) :
    ∀ m : List (RateLimitKey × RateLimitEntry), rlGet k (rlInsert k v m) = some v := by
  intro m
  induction m with
  | nil => simp [rlGet, rlInsert]
  | cons hd tl ih =>
      obtain ⟨k', v'⟩ := hd
      by_cases h : k = k'
      · simp [rlInsert, h, rlGet]
      · simp [rlInsert, h, rlGet, ih]

theorem rlInsert_rlInsert (k : RateLimitKey) (v w : RateLimitEntry) :
    ∀ m : List (RateLimitKey × RateLimitEntry),
      rlInsert k v (rlInsert k w m) = rlInsert k v m := by
  intro m
  induction m with
  | nil => simp [rlInsert]
  | cons hd tl ih =>
      obtain ⟨k', v'⟩ := hd
      by_cases h : k = k'
      · simp [rlInsert, h]
      · simp [rlInsert, h, ih]

/-! ## Frame facts about the reward operations -/

/-- `record_product_verification` writes only `USER_VERIFIED_PRODUCTS`:
every other collection of the state is untouched. -/
theorem record_product_verification_frame_eq (st : CanisterState)
    (u p : Principal) :
    record_product_verification st u p =
      { st with user_verified_products :=
          (record_product_verification st u p).user_verified_products } := by
  cases h : pmGet u st.user_verified_products with
  | none => simp [record_product_verification, h]
  | some uv =>
      by_cases hm : p ∈ uv.verified_products <;>
        simp [record_product_verification, h, hm]

/-- `update_user_rewards` writes only `USER_REWARDS`: every other
collection of the state is untouched. -/
theorem update_user_rewards_frame_eq (st : CanisterState) (u : Principal)
    (pts : Nat) (f : Bool) (now : Nat) :
    update_user_rewards st u pts f now =
      { st with user_rewards :=
          (update_user_rewards st u pts f now).user_rewards } := by
  cases h : pmGet u st.user_rewards with
  | none => simp [update_user_rewards, h]
  | some r => simp [update_user_rewards, h]

/-- `calculate_verification_rewards` writes only `USER_VERIFIED_PRODUCTS`
and `USER_REWARDS`: every other collection of the state is untouched. -/
theorem calculate_frame (st : CanisterState) (u p : Principal)
    (s : ProductVerificationStatus) (now : Nat) :
    ∃ x y, (calculate_verification_rewards st u p s now).2 =
      { st with user_verified_products := x, user_rewards := y } := by
  simp only [calculate_verification_rewards]
  by_cases hs : s = ProductVerificationStatus.Invalid
  · simp only [hs, ne_eq, not_true_eq_false, if_false]
    split <;> (try split) <;>
      first
        | (rw [update_user_rewards_frame_eq]; exact ⟨_, _, rfl⟩)
        | exact ⟨_, _, rfl⟩
  · simp only [ne_eq, hs, not_false_eq_true, if_true]
    rw [record_product_verification_frame_eq st u p]
    split <;> (try split) <;>
      first
        | (rw [update_user_rewards_frame_eq]; exact ⟨_, _, rfl⟩)
        | exact ⟨_, _, rfl⟩

/-! ## Result projections used in the claim statements -/

/-- The status carried by a `verify_product_v2` response, when it is a
data result. -/
def productRespStatus :
    ApiResponse ProductVerificationEnhancedResponse →
    Option ProductVerificationStatus
  | .success r => some r.status
  | .error _ => none

/-- The status carried by a `verify_reseller_v2` response, when it is a
data result. -/
def resellerRespStatus :
    ApiResponse ResellerVerificationResponse → Option ResellerVerificationStatus
  | .success r => some r.status
  | .error _ => none

/-- The `success` flag of a `redeem_product_reward` response, when it is
a data result. -/
def redeemSuccessFlag : ApiResponse RedeemRewardResponse → Option Bool
  | .success r => some r.success
  | .error _ => none

/-- The `transaction_id` of a `redeem_product_reward` response, when it
is a data result. -/
def redeemTxId : ApiResponse RedeemRewardResponse → Option (Option String)
  | .success r => some r.transaction_id
  | .error _ => none

/-! ## A concrete testbed state

Organization `1` (key pair `11`, private key stored as its hex scalar),
product `2` under it (public key: the SEC1 point of key pair `11`),
serial `3` at `print_version` 1, reseller `4` under organization `1`. -/

def tbOrg : Organization := ⟨1, "org", "d", .scalarBytes 11, [], 0, 0, 0, 0⟩

def tbProd : Product := ⟨2, "prod", 1, "c", "d", [], .pointBytes 11, 0, 0, 0, 0⟩

def tbSn : ProductSerialNumber := ⟨2, 3, 1, [], 0, 0, 0, 0⟩

def tbReseller : Reseller := ⟨4, 9, 1, "res", true, .pointBytes 11, 0⟩

def tbState : CanisterState :=
  ⟨[(1, tbOrg)], [(2, tbProd)], [(2, [tbSn])], [], [(4, tbReseller)],
   [], [], [], []⟩

/-- A correctly signed unique code for serial `3` of product `2` at
`print_version` 1, signed with organization 1's key pair. -/
def tbCode : CodeString := .sigHex (ecdsaSign 11 (.productMsg 2 3 1))

def tbPromoMeta : Metadata := ⟨"promo", "gift"⟩

/-- `tbState` with a promotion registered for product `2`. -/
def tbStatePromo : CanisterState :=
  ⟨[(1, tbOrg)], [(2, tbProd)], [(2, [tbSn])], [], [(4, tbReseller)],
   [], [], [], [(2, tbPromoMeta)]⟩

/-! ## C3 -/

/-- A request for serial `3` carrying the correct code for the stored
`print_version` 1 but asserting `print_version = 99`. -/
def tbReqClaim99 : VerifyProductEnhancedRequest :=
  ⟨2, 3, 99, tbCode, [], none, none⟩

/-- C3 counterexample: the claimed `print_version` (99) differs from the
stored one (1), yet `verify_product_v2` does not return `Invalid` — it
accepts the code that matches the persisted version. -/
theorem C3_counterexample :
    tbReqClaim99.print_version ≠ tbSn.print_version ∧
    productRespStatus (verify_product_v2 tbState tbReqClaim99 7 1000).1 =
      some ProductVerificationStatus.FirstVerification := by
  constructor
  · decide
  · rfl

/-- C3 (amended): the signed canonical message of `verify_product_v2` is
always built from the persisted `print_version`; the caller-asserted
`print_version` of the request is ignored entirely — it is not even used
as a fast rejection, and the response and successor state are
independent of it. -/
theorem C3_theorem (st : CanisterState) (r : VerifyProductEnhancedRequest)
    (caller : Principal) (now : Nat) (a b : Nat) :
    verify_product_v2 st { r with print_version := a } caller now =
      verify_product_v2 st { r with print_version := b } caller now := rfl

/-! ## C8 -/

/-- A request for serial `3` carrying the correct code for the stored
`print_version` together with a client timestamp 900 seconds in the
past. -/
def tbReqStale : VerifyProductEnhancedRequest :=
  ⟨2, 3, 1, tbCode, [], some 100, none⟩

/-- C8 counterexample: at `now = 1000` the request's client timestamp
`100` is stale by far more than 300 seconds, yet `verify_product_v2`
does not reject with `Invalid` — the verification succeeds. -/
theorem C8_counterexample :
    1000 - 100 > 300 ∧
    tbReqStale.timestamp = some 100 ∧
    productRespStatus (verify_product_v2 tbState tbReqStale 7 1000).1 =
      some ProductVerificationStatus.FirstVerification := by
  refine ⟨by decide, rfl, rfl⟩

/-- C8 (amended): `verify_product_v2` ignores the client timestamp of the
request entirely: no staleness rejection is performed and the response
and successor state are independent of the `timestamp` field. -/
theorem C8_theorem (st : CanisterState) (r : VerifyProductEnhancedRequest)
    (caller : Principal) (now : Nat) (a b : Option Nat) :
    verify_product_v2 st { r with timestamp := a } caller now =
      verify_product_v2 st { r with timestamp := b } caller now := rfl

/-! ## C5 -/

/-- C5 counterexample: with a promotion registered for product `2`,
calling `calculate_verification_rewards` with status `Invalid` does have
a side effect — the caller's `UserRewards` record is created/updated
(the promotion bonus of 50 points is credited even though the
verification was `Invalid`). -/
theorem C5_counterexample :
    (calculate_verification_rewards tbStatePromo 7 2
        ProductVerificationStatus.Invalid 1000).2.user_rewards ≠
      tbStatePromo.user_rewards := by
  decide

/-- C5 (amended): with status `Invalid`, `calculate_verification_rewards`
never touches the caller's `VerifiedProductsSet`; and when no `Promotion`
exists for the product it performs no side effect at all (the state is
returned unchanged).  When a promotion exists the `UserRewards` record
is updated (see the counterexample). -/
theorem C5_theorem (st : CanisterState) (u p : Principal) (now : Nat) :
    (calculate_verification_rewards st u p
        ProductVerificationStatus.Invalid now).2.user_verified_products =
      st.user_verified_products ∧
    (get_special_promotion st p = none →
      (calculate_verification_rewards st u p
          ProductVerificationStatus.Invalid now).2 = st) := by
  have hst1 : (if ProductVerificationStatus.Invalid ≠ ProductVerificationStatus.Invalid
      then record_product_verification st u p else st) = st := if_neg (by simp)
  constructor
  · simp only [calculate_verification_rewards, hst1]
    split <;> (try split) <;> (try rw [update_user_rewards_frame_eq]) <;> rfl
  · intro hp
    simp only [calculate_verification_rewards, hst1, hp]
    norm_num [u32add, u32Mod]

/-- C5 witness: at a concrete promotion-free state the amended claim's
hypothesis holds and the `Invalid` call leaves the state unchanged. -/
theorem C5_witness :
    get_special_promotion tbState 2 = none ∧
    (calculate_verification_rewards tbState 7 2
        ProductVerificationStatus.Invalid 1000).2 = tbState :=
  ⟨rfl, (C5_theorem tbState 7 2 1000).2 rfl⟩

/-! ## C4 -/

/-- C4: starting with no rate-limit entry for the key, five
`record_verification_attempt` calls within one window succeed with
remaining attempts 4, 3, 2, 1, 0; a sixth call inside the window is
rejected with the rate-limited error and does not change the stored
entry (the error return happens before any insert); and the first call
after the window has elapsed resets the entry, storing `attempts = 1`
(not 6). -/
theorem C4_theorem (rl0 : List (RateLimitKey × RateLimitEntry))
    (u p : Principal) (t0 t1 t2 t3 t4 t5 t6 : Nat)
    (h0 : rlGet ⟨u, p⟩ rl0 = none)
    (h1 : t1 ≤ t0 + WINDOW_DURATION_SECONDS)
    (h2 : t2 ≤ t0 + WINDOW_DURATION_SECONDS)
    (h3 : t3 ≤ t0 + WINDOW_DURATION_SECONDS)
    (h4 : t4 ≤ t0 + WINDOW_DURATION_SECONDS)
    (h5 : t5 ≤ t0 + WINDOW_DURATION_SECONDS)
    (h6 : t6 > t0 + WINDOW_DURATION_SECONDS) :
    record_verification_attempt rl0 u p t0 =
      .ok (⟨4, t0 + WINDOW_DURATION_SECONDS, t0⟩,
           rlInsert ⟨u, p⟩ ⟨u, p, 1, t0, t0⟩ rl0) ∧
    record_verification_attempt (rlInsert ⟨u, p⟩ ⟨u, p, 1, t0, t0⟩ rl0) u p t1 =
      .ok (⟨3, t0 + WINDOW_DURATION_SECONDS, t0⟩,
           rlInsert ⟨u, p⟩ ⟨u, p, 2, t0, t1⟩ rl0) ∧
    record_verification_attempt (rlInsert ⟨u, p⟩ ⟨u, p, 2, t0, t1⟩ rl0) u p t2 =
      .ok (⟨2, t0 + WINDOW_DURATION_SECONDS, t0⟩,
           rlInsert ⟨u, p⟩ ⟨u, p, 3, t0, t2⟩ rl0) ∧
    record_verification_attempt (rlInsert ⟨u, p⟩ ⟨u, p, 3, t0, t2⟩ rl0) u p t3 =
      .ok (⟨1, t0 + WINDOW_DURATION_SECONDS, t0⟩,
           rlInsert ⟨u, p⟩ ⟨u, p, 4, t0, t3⟩ rl0) ∧
    record_verification_attempt (rlInsert ⟨u, p⟩ ⟨u, p, 4, t0, t3⟩ rl0) u p t4 =
      .ok (⟨0, t0 + WINDOW_DURATION_SECONDS, t0⟩,
           rlInsert ⟨u, p⟩ ⟨u, p, 5, t0, t4⟩ rl0) ∧
    record_verification_attempt (rlInsert ⟨u, p⟩ ⟨u, p, 5, t0, t4⟩ rl0) u p t5 =
      .err (.InvalidInput ("Rate limit exceeded. Try again after " ++
        toString (t0 + WINDOW_DURATION_SECONDS))) ∧
    record_verification_attempt (rlInsert ⟨u, p⟩ ⟨u, p, 5, t0, t4⟩ rl0) u p t6 =
      .ok (⟨4, t6 + WINDOW_DURATION_SECONDS, t6⟩,
           rlInsert ⟨u, p⟩ ⟨u, p, 1, t6, t6⟩ rl0) := by
  simp only [WINDOW_DURATION_SECONDS] at *
  refine ⟨?_, ?_, ?_, ?_, ?_, ?_, ?_⟩
  · simp only [record_verification_attempt, h0, WINDOW_DURATION_SECONDS,
      MAX_ATTEMPTS_PER_WINDOW]
    norm_num
  · simp only [record_verification_attempt, rlGet_rlInsert_self,
      WINDOW_DURATION_SECONDS, MAX_ATTEMPTS_PER_WINDOW]
    rw [if_neg (show ¬ (t1 > t0 + 300) by omega)]
    norm_num [rlInsert_rlInsert]
  · simp only [record_verification_attempt, rlGet_rlInsert_self,
      WINDOW_DURATION_SECONDS, MAX_ATTEMPTS_PER_WINDOW]
    rw [if_neg (show ¬ (t2 > t0 + 300) by omega)]
    norm_num [rlInsert_rlInsert]
  · simp only [record_verification_attempt, rlGet_rlInsert_self,
      WINDOW_DURATION_SECONDS, MAX_ATTEMPTS_PER_WINDOW]
    rw [if_neg (show ¬ (t3 > t0 + 300) by omega)]
    norm_num [rlInsert_rlInsert]
  · simp only [record_verification_attempt, rlGet_rlInsert_self,
      WINDOW_DURATION_SECONDS, MAX_ATTEMPTS_PER_WINDOW]
    rw [if_neg (show ¬ (t4 > t0 + 300) by omega)]
    norm_num [rlInsert_rlInsert]
  · simp only [record_verification_attempt, rlGet_rlInsert_self,
      WINDOW_DURATION_SECONDS, MAX_ATTEMPTS_PER_WINDOW]
    rw [if_neg (show ¬ (t5 > t0 + 300) by omega)]
    norm_num
  · simp only [record_verification_attempt, rlGet_rlInsert_self,
      WINDOW_DURATION_SECONDS, MAX_ATTEMPTS_PER_WINDOW]
    rw [if_pos (show t6 > t0 + 300 by omega)]
    norm_num [rlInsert_rlInsert]

/-- C4 witness: the sixth in-window call at a concrete state is rejected
and the first call after the window stores `attempts = 1`. -/
theorem C4_witness :
    (1301 > 1000 + WINDOW_DURATION_SECONDS) ∧
    record_verification_attempt
        (rlInsert ⟨7, 2⟩ ⟨7, 2, 5, 1000, 1000⟩ []) 7 2 1000 =
      .err (.InvalidInput ("Rate limit exceeded. Try again after " ++
        toString (1000 + WINDOW_DURATION_SECONDS))) ∧
    record_verification_attempt
        (rlInsert ⟨7, 2⟩ ⟨7, 2, 5, 1000, 1000⟩ []) 7 2 1301 =
      .ok (⟨4, 1301 + WINDOW_DURATION_SECONDS, 1301⟩,
           rlInsert ⟨7, 2⟩ ⟨7, 2, 1, 1301, 1301⟩ []) := by
  have h := C4_theorem [] 7 2 1000 1000 1000 1000 1000 1000 1301 rfl
    (by decide) (by decide) (by decide) (by decide) (by decide) (by decide)
  exact ⟨by decide, h.2.2.2.2.2.1, h.2.2.2.2.2.2⟩

/-! ## C6 -/

theorem is_first_after_record (st : CanisterState) (u p : Principal) :
    is_first_verification_for_user (record_product_verification st u p) u p =
      false := by
  cases h : pmGet u st.user_verified_products with
  | none =>
      simp [record_product_verification, is_first_verification_for_user, h,
        pmGet_pmInsert_self]
  | some uv =>
      by_cases hm : p ∈ uv.verified_products <;>
        simp [record_product_verification, is_first_verification_for_user, h, hm,
          pmGet_pmInsert_self]

theorem is_first_after_update (st : CanisterState) (u : Principal)
    (pts : Nat) (f : Bool) (now : Nat) (q p : Principal) :
    is_first_verification_for_user (update_user_rewards st u pts f now) q p =
      is_first_verification_for_user st q p := by
  rw [update_user_rewards_frame_eq]
  rfl

theorem is_first_calc_post (st : CanisterState) (u p : Principal)
    (s : ProductVerificationStatus) (now : Nat) :
    is_first_verification_for_user
        (calculate_verification_rewards st u p s now).2 u p =
      (if s = ProductVerificationStatus.Invalid then
        is_first_verification_for_user st u p
      else false) := by
  by_cases hs : s = ProductVerificationStatus.Invalid
  · subst hs
    have hst1 : (if ProductVerificationStatus.Invalid ≠
          ProductVerificationStatus.Invalid
        then record_product_verification st u p else st) = st := if_neg (by simp)
    simp only [calculate_verification_rewards, hst1, if_pos rfl]
    split <;> (try split) <;> (try rw [is_first_after_update]) <;> rfl
  · have hst1 : (if s ≠ ProductVerificationStatus.Invalid
        then record_product_verification st u p else st) =
        record_product_verification st u p := if_pos hs
    simp only [calculate_verification_rewards, hst1, if_neg hs]
    split <;> (try split) <;> (try rw [is_first_after_update]) <;>
      exact is_first_after_record st u p

theorem calc_result_is_first (st : CanisterState) (u p : Principal)
    (s : ProductVerificationStatus) (now : Nat) :
    (calculate_verification_rewards st u p s now).1.is_first_verification =
      is_first_verification_for_user st u p := rfl

/-- C6: for a user who has not yet verified the product, the first
`calculate_verification_rewards` call with status `FirstVerification`
returns `is_first_verification = true` and 100 points (150 when a
promotion exists for the product); afterwards the product is marked
verified for the user, and any later call for the same pair — whatever
status argument is passed — returns `is_first_verification = false` and
keeps the pair marked. -/
theorem C6_theorem (st : CanisterState) (u p : Principal) (now : Nat)
    (h_first : is_first_verification_for_user st u p = true) :
    (calculate_verification_rewards st u p
        ProductVerificationStatus.FirstVerification now).1.is_first_verification =
      true ∧
    (calculate_verification_rewards st u p
        ProductVerificationStatus.FirstVerification now).1.points =
      (if (get_special_promotion st p).isSome then 150 else 100) ∧
    is_first_verification_for_user
        (calculate_verification_rewards st u p
          ProductVerificationStatus.FirstVerification now).2 u p = false ∧
    (∀ (st2 : CanisterState) (s : ProductVerificationStatus) (now2 : Nat),
      is_first_verification_for_user st2 u p = false →
        (calculate_verification_rewards st2 u p s now2).1.is_first_verification =
          false ∧
        is_first_verification_for_user
          (calculate_verification_rewards st2 u p s now2).2 u p = false) := by
  refine ⟨?_, ?_, ?_, ?_⟩
  · rw [calc_result_is_first]; exact h_first
  · by_cases hp : (get_special_promotion st p).isSome <;>
      simp only [calculate_verification_rewards, hp] <;>
      norm_num [u32add, u32Mod, FIRST_VERIFICATION_POINTS,
        SPECIAL_PROMOTION_POINTS]
  · rw [is_first_calc_post]
    simp
  · intro st2 s now2 hfalse
    refine ⟨?_, ?_⟩
    · rw [calc_result_is_first]; exact hfalse
    · rw [is_first_calc_post]
      split <;> simp [hfalse]

/-- C6 witness: concrete first call at `tbState` (no promotion) and a
subsequent call for the same pair. -/
theorem C6_witness :
    is_first_verification_for_user tbState 7 2 = true ∧
    (calculate_verification_rewards tbState 7 2
        ProductVerificationStatus.FirstVerification 1000).1.is_first_verification =
      true ∧
    (calculate_verification_rewards tbState 7 2
        ProductVerificationStatus.FirstVerification 1000).1.points = 100 ∧
    (calculate_verification_rewards
        (calculate_verification_rewards tbState 7 2
          ProductVerificationStatus.FirstVerification 1000).2 7 2
        ProductVerificationStatus.MultipleVerification
        2000).1.is_first_verification = false := by
  have h := C6_theorem tbState 7 2 1000 (by decide)
  refine ⟨by decide, h.1, ?_, ?_⟩
  · have hpts := h.2.1
    simpa [get_special_promotion, tbState, pmGet] using hpts
  · exact (h.2.2.2 _ ProductVerificationStatus.MultipleVerification 2000
      h.2.2.1).1

/-! ## C9 -/

/-- C9: when the ECDSA check of `verify_product_v2` fails (the code
decodes and parses, but the signature does not verify against the
product's key over the persisted-version message), the call returns the
`Invalid` status as a data result with no verification record and no
rewards payload, and the successor state differs from the initial one
only in the rate-limit map — exactly the attempt recorded before the
signature check. -/
theorem C9_theorem (st : CanisterState) (req : VerifyProductEnhancedRequest)
    (caller : Principal) (now : Nat) (pid : Principal)
    (sn : ProductSerialNumber) (prod : Product) (pk : Nat) (sig : Sig)
    (info : RateLimitInfo) (rl' : List (RateLimitKey × RateLimitEntry))
    (h_find : findSerialAcrossProducts st.product_serial_numbers req.serial_no =
      some (pid, sn))
    (h_rl : record_verification_attempt st.rate_limits caller pid now =
      .ok (info, rl'))
    (h_prod : pmGet pid st.products = some prod)
    (h_pk : prod.public_key.parseVerifyingKey = some pk)
    (h_sig : req.unique_code.parseSignature = some sig)
    (h_fail : ecdsaVerify pk
      (.productMsg pid req.serial_no sn.print_version) sig = false) :
    verify_product_v2 st req caller now =
      (.success ⟨.Invalid, none, none, none⟩,
       { st with rate_limits := rl' }) := by
  have h_hex : req.unique_code.hexDecodes = true := by
    cases hc : req.unique_code <;> rw [hc] at h_sig <;>
      simp_all [CodeString.parseSignature, CodeString.hexDecodes]
  simp only [verify_product_v2, h_find, h_rl, h_prod, h_pk, h_sig, h_fail,
    h_hex]
  simp

/-- A code for serial `3` of product `2` at version 1 signed with the
wrong key pair (13 instead of 11). -/
def tbBadCode : CodeString := .sigHex (ecdsaSign 13 (.productMsg 2 3 1))

def tbReqBad : VerifyProductEnhancedRequest := ⟨2, 3, 1, tbBadCode, [], none, none⟩

/-- C9 witness: concrete failed verification — `Invalid`, nothing
persisted except the rate-limit attempt. -/
theorem C9_witness :
    verify_product_v2 tbState tbReqBad 7 1000 =
      (.success ⟨.Invalid, none, none, none⟩,
       { tbState with
          rate_limits := rlInsert ⟨7, 2⟩ ⟨7, 2, 1, 1000, 1000⟩ [] }) :=
  C9_theorem tbState tbReqBad 7 1000 2 tbSn tbProd 11
    (ecdsaSign 13 (.productMsg 2 3 1)) ⟨4, 1300, 1000⟩
    (rlInsert ⟨7, 2⟩ ⟨7, 2, 1, 1000, 1000⟩ []) rfl (by decide) rfl rfl rfl
    (by decide)

/-! ## C2 -/

/-- C2: the round trip the claim describes is impossible in this code.
`generate_reseller_unique_code_v2` signs with the organization's private
scalar, but `verify_reseller_v2` feeds those same private-scalar bytes
to `EncodedPoint::from_bytes` / `VerifyingKey::from_encoded_point`
(icp.rs step 4) — a 32-byte scalar never parses as a SEC1 point, so
within the expiry window verification returns `InternalError`, never
`Success` (and never `InvalidCode` for a wrong context).  Only the
`ExpiredCode` outcome of the claim, whose check precedes key handling,
is as claimed.  This theorem evaluates the code at the failing input:
a code generated at `T = 1000` with context `"X"` verifies
`InternalError` at `T+299` with context `"X"`, `ExpiredCode` at `T+301`,
and `InternalError` (not `InvalidCode`) with context `"Y"` at `T+299`. -/
theorem C2_theorem :
    generate_reseller_unique_code_v2 tbState ⟨4, some "X"⟩ 1000 =
      .success ⟨.sigHex (ecdsaSign 11 (.resellerMsg 4 1000 "X")), 4, 1000,
        some "X"⟩ ∧
    resellerRespStatus (verify_reseller_v2 tbState
        ⟨4, .sigHex (ecdsaSign 11 (.resellerMsg 4 1000 "X")), 1000, some "X"⟩
        1299) = some ResellerVerificationStatus.InternalError ∧
    resellerRespStatus (verify_reseller_v2 tbState
        ⟨4, .sigHex (ecdsaSign 11 (.resellerMsg 4 1000 "X")), 1000, some "X"⟩
        1301) = some ResellerVerificationStatus.ExpiredCode ∧
    resellerRespStatus (verify_reseller_v2 tbState
        ⟨4, .sigHex (ecdsaSign 11 (.resellerMsg 4 1000 "X")), 1000, some "Y"⟩
        1299) = some ResellerVerificationStatus.InternalError := by
  refine ⟨rfl, rfl, rfl, rfl⟩

/-! ## Helper lemmas for the redemption claims -/

theorem findTarget_get? (caller serial_no : Principal) (pv : Nat) :
    ∀ (l : List ProductVerification) (i : Nat) (w : ProductVerification),
      findTargetVerification caller serial_no pv l = some (i, w) →
      l.get? i = some w := by
  intro l
  induction l with
  | nil => intro i w h; simp [findTargetVerification] at h
  | cons hd tl ih =>
      intro i w h
      by_cases hc : hd.created_by = caller ∧ hd.serial_no = serial_no ∧
          hd.print_version = pv
      · rw [findTargetVerification, if_pos hc, Option.some_inj,
          Prod.mk.injEq] at h
        obtain ⟨h1, h2⟩ := h
        subst h1
        subst h2
        rfl
      · rw [findTargetVerification, if_neg hc] at h
        cases htl : findTargetVerification caller serial_no pv tl with
        | none => rw [htl] at h; cases h
        | some x =>
            obtain ⟨j, w0⟩ := x
            rw [htl, Option.some_inj, Prod.mk.injEq] at h
            obtain ⟨h1, h2⟩ := h
            subst h1
            subst h2
            simpa using ih j w0 htl

theorem findTarget_set (caller serial_no : Principal) (pv : Nat)
    (w' : ProductVerification) :
    ∀ (l : List ProductVerification) (i : Nat) (w : ProductVerification),
      findTargetVerification caller serial_no pv l = some (i, w) →
      w'.created_by = w.created_by → w'.serial_no = w.serial_no →
      w'.print_version = w.print_version →
      findTargetVerification caller serial_no pv (l.set i w') = some (i, w') := by
  intro l
  induction l with
  | nil => intro i w h; simp [findTargetVerification] at h
  | cons hd tl ih =>
      intro i w h hc1 hc2 hc3
      by_cases hc : hd.created_by = caller ∧ hd.serial_no = serial_no ∧
          hd.print_version = pv
      · rw [findTargetVerification, if_pos hc, Option.some_inj,
          Prod.mk.injEq] at h
        obtain ⟨h1, h2⟩ := h
        subst h1
        subst h2
        rw [List.set]
        rw [findTargetVerification, if_pos (by
          refine ⟨?_, ?_, ?_⟩
          · rw [hc1]; exact hc.1
          · rw [hc2]; exact hc.2.1
          · rw [hc3]; exact hc.2.2)]
      · rw [findTargetVerification, if_neg hc] at h
        cases htl : findTargetVerification caller serial_no pv tl with
        | none => rw [htl] at h; cases h
        | some x =>
            obtain ⟨j, w0⟩ := x
            rw [htl, Option.some_inj, Prod.mk.injEq] at h
            obtain ⟨h1, h2⟩ := h
            subst h1
            subst h2
            rw [List.set]
            rw [findTargetVerification, if_neg hc,
              ih j w0 htl hc1 hc2 hc3]

theorem calc_pv_eq (st : CanisterState) (u p : Principal)
    (s : ProductVerificationStatus) (now : Nat) :
    (calculate_verification_rewards st u p s now).2.product_verifications =
      st.product_verifications := by
  obtain ⟨x, y, h⟩ := calculate_frame st u p s now
  rw [h]

theorem calc_psn_eq (st : CanisterState) (u p : Principal)
    (s : ProductVerificationStatus) (now : Nat) :
    (calculate_verification_rewards st u p s now).2.product_serial_numbers =
      st.product_serial_numbers := by
  obtain ⟨x, y, h⟩ := calculate_frame st u p s now
  rw [h]

theorem calc_products_eq (st : CanisterState) (u p : Principal)
    (s : ProductVerificationStatus) (now : Nat) :
    (calculate_verification_rewards st u p s now).2.products = st.products := by
  obtain ⟨x, y, h⟩ := calculate_frame st u p s now
  rw [h]

theorem calc_points_first_ne_zero (st : CanisterState) (u p : Principal)
    (now : Nat) :
    (calculate_verification_rewards st u p
        ProductVerificationStatus.FirstVerification now).1.points ≠ 0 := by
  by_cases hp : (get_special_promotion st p).isSome <;>
    simp only [calculate_verification_rewards, hp] <;>
    norm_num [u32add, u32Mod, FIRST_VERIFICATION_POINTS,
      SPECIAL_PROMOTION_POINTS]

/-! ## C7 -/

/-- The simulated transaction id `format!("simulated-tx-{}", id)` of
`redeem_product_reward`. -/
def simulatedTx (v : ProductVerification) : String :=
  "simulated-tx-" ++ toString v.id

/-- The verification record as updated by a successful redemption. -/
def claimRec (v : ProductVerification) : ProductVerification :=
  { v with reward_claimed := true, reward_transaction_id := some (simulatedTx v) }

/-- The first successful redemption call, computed: under a valid code
for the persisted version and an unclaimed `FirstVerification` record,
`redeem_product_reward` returns `success = true` with the simulated
transaction id, and persists the record marked claimed, after the reward
recalculation's side effects. -/
theorem redeem_first_call (st : CanisterState) (req : RedeemRewardRequest)
    (caller : Principal) (now : Nat) (pid : Principal)
    (sn : ProductSerialNumber) (prod : Product) (k : Nat)
    (pvec : List ProductVerification) (idx : Nat) (rec : ProductVerification)
    (h_find : findSerialAcrossProducts st.product_serial_numbers req.serial_no =
      some (pid, sn))
    (h_prod : pmGet pid st.products = some prod)
    (h_pk : prod.public_key = .pointBytes k)
    (h_code : req.unique_code =
      .sigHex (ecdsaSign k (.productMsg pid req.serial_no sn.print_version)))
    (h_vec : pmGet pid st.product_verifications = some pvec)
    (h_tgt : findTargetVerification caller req.serial_no sn.print_version pvec =
      some (idx, rec))
    (h_status : rec.status = ProductVerificationStatus.FirstVerification)
    (h_claimed : rec.reward_claimed = false) :
    redeem_product_reward st req caller now =
      (.success ⟨true, some (simulatedTx rec),
        "Successfully redeemed " ++
          toString (calculate_verification_rewards st caller pid
            ProductVerificationStatus.FirstVerification now).1.points ++
          " points."⟩,
       { (calculate_verification_rewards st caller pid
            ProductVerificationStatus.FirstVerification now).2 with
          product_verifications :=
            pmInsert pid (pvec.set idx (claimRec rec))
              st.product_verifications }) := by
  have h_hex : req.unique_code.hexDecodes = true := by rw [h_code]; rfl
  have h_sig : req.unique_code.parseSignature =
      some (ecdsaSign k (.productMsg pid req.serial_no sn.print_version)) := by
    rw [h_code]; rfl
  have h_ver : ecdsaVerify k (.productMsg pid req.serial_no sn.print_version)
      (ecdsaSign k (.productMsg pid req.serial_no sn.print_version)) = true := by
    simp [ecdsaVerify, ecdsaSign]
  have h_pk' : prod.public_key.parseVerifyingKey = some k := by rw [h_pk]; rfl
  have h_pts : ((calculate_verification_rewards st caller pid
      ProductVerificationStatus.FirstVerification now).1.points = 0) = False :=
    eq_false (calc_points_first_ne_zero st caller pid now)
  have h_get? : pvec.get? idx = some rec :=
    findTarget_get? caller req.serial_no sn.print_version pvec idx rec h_tgt
  simp only [redeem_product_reward, h_find, h_prod, h_pk', h_hex, h_sig,
    h_ver, h_status, h_claimed, h_pts, calc_pv_eq, h_vec, h_tgt, h_get?]
  simp [claimRec, simulatedTx]
  rw [h_status]

/-- C7: redeeming a `FirstVerification` record (valid code, no
intervening print) returns `success = true` with the simulated
transaction id on the first call; the second call for the same record
returns `success = false` — a data result, not an error — surfacing the
very transaction id stored by the first call. -/
theorem C7_theorem (st : CanisterState) (req : RedeemRewardRequest)
    (caller : Principal) (now now2 : Nat) (pid : Principal)
    (sn : ProductSerialNumber) (prod : Product) (k : Nat)
    (pvec : List ProductVerification) (idx : Nat) (rec : ProductVerification)
    (h_find : findSerialAcrossProducts st.product_serial_numbers req.serial_no =
      some (pid, sn))
    (h_prod : pmGet pid st.products = some prod)
    (h_pk : prod.public_key = .pointBytes k)
    (h_code : req.unique_code =
      .sigHex (ecdsaSign k (.productMsg pid req.serial_no sn.print_version)))
    (h_vec : pmGet pid st.product_verifications = some pvec)
    (h_tgt : findTargetVerification caller req.serial_no sn.print_version pvec =
      some (idx, rec))
    (h_status : rec.status = ProductVerificationStatus.FirstVerification)
    (h_claimed : rec.reward_claimed = false) :
    redeemSuccessFlag (redeem_product_reward st req caller now).1 = some true ∧
    redeemTxId (redeem_product_reward st req caller now).1 =
      some (some ("simulated-tx-" ++ toString rec.id)) ∧
    redeemSuccessFlag (redeem_product_reward
      (redeem_product_reward st req caller now).2 req caller now2).1 =
      some false ∧
    redeemTxId (redeem_product_reward
      (redeem_product_reward st req caller now).2 req caller now2).1 =
      some (some ("simulated-tx-" ++ toString rec.id)) := by
  have h_hex : req.unique_code.hexDecodes = true := by rw [h_code]; rfl
  have h_sig : req.unique_code.parseSignature =
      some (ecdsaSign k (.productMsg pid req.serial_no sn.print_version)) := by
    rw [h_code]; rfl
  have h_ver : ecdsaVerify k (.productMsg pid req.serial_no sn.print_version)
      (ecdsaSign k (.productMsg pid req.serial_no sn.print_version)) = true := by
    simp [ecdsaVerify, ecdsaSign]
  have h_pk' : prod.public_key.parseVerifyingKey = some k := by rw [h_pk]; rfl
  have h_tgt2 : findTargetVerification caller req.serial_no sn.print_version
      (pvec.set idx (claimRec rec)) = some (idx, claimRec rec) :=
    findTarget_set caller req.serial_no sn.print_version (claimRec rec) pvec
      idx rec h_tgt rfl rfl rfl
  have hcall1 := redeem_first_call st req caller now pid sn prod k pvec idx
    rec h_find h_prod h_pk h_code h_vec h_tgt h_status h_claimed
  refine ⟨?_, ?_, ?_, ?_⟩
  · rw [hcall1]; rfl
  · rw [hcall1]; rfl
  · rw [hcall1]
    simp only [redeem_product_reward, calc_psn_eq, calc_products_eq, h_find,
      h_prod, h_pk', h_hex, h_sig, h_ver, pmGet_pmInsert_self, h_tgt2]
    simp [redeemSuccessFlag, claimRec]
  · rw [hcall1]
    simp only [redeem_product_reward, calc_psn_eq, calc_products_eq, h_find,
      h_prod, h_pk', h_hex, h_sig, h_ver, pmGet_pmInsert_self, h_tgt2]
    simp [redeemTxId, claimRec, simulatedTx]

/-- An unclaimed `FirstVerification` record for serial `3` of product
`2` at version 1, created by caller `7`. -/
def tbVerRec : ProductVerification :=
  ⟨50, 2, 3, 1, [], 500, 7, .FirstVerification, false, none⟩

/-- `tbState` with `tbVerRec` stored for product `2`. -/
def tbStateVer : CanisterState :=
  ⟨[(1, tbOrg)], [(2, tbProd)], [(2, [tbSn])], [(2, [tbVerRec])],
   [(4, tbReseller)], [], [], [], []⟩

def tbRedeemReq : RedeemRewardRequest := ⟨3, tbCode, "wallet"⟩

/-- C7 witness: the double redemption at a concrete state. -/
theorem C7_witness :
    redeemSuccessFlag (redeem_product_reward tbStateVer tbRedeemReq 7 1000).1 =
      some true ∧
    redeemTxId (redeem_product_reward tbStateVer tbRedeemReq 7 1000).1 =
      some (some ("simulated-tx-" ++ toString tbVerRec.id)) ∧
    redeemSuccessFlag (redeem_product_reward
      (redeem_product_reward tbStateVer tbRedeemReq 7 1000).2 tbRedeemReq 7
      2000).1 = some false ∧
    redeemTxId (redeem_product_reward
      (redeem_product_reward tbStateVer tbRedeemReq 7 1000).2 tbRedeemReq 7
      2000).1 = some (some ("simulated-tx-" ++ toString tbVerRec.id)) :=
  C7_theorem tbStateVer tbRedeemReq 7 1000 2000 2 tbSn tbProd 11 [tbVerRec] 0
    tbVerRec rfl rfl rfl rfl rfl (by decide) rfl rfl

/-! ## C10 -/

/-- The caller's persisted total points (0 when no `UserRewards` record
exists yet). -/
def storedTotalPoints (st : CanisterState) (u : Principal) : Nat :=
  match pmGet u st.user_rewards with
  | some r => r.total_points
  | none => 0

/-- The caller's persisted verification count (0 when no `UserRewards`
record exists yet). -/
def storedVerificationCount (st : CanisterState) (u : Principal) : Nat :=
  match pmGet u st.user_rewards with
  | some r => r.verification_count
  | none => 0

theorem storedTotalPoints_record (st : CanisterState) (u p q : Principal) :
    storedTotalPoints (record_product_verification st u p) q =
      storedTotalPoints st q := by
  rw [record_product_verification_frame_eq]
  rfl

theorem storedVerificationCount_record (st : CanisterState) (u p q : Principal) :
    storedVerificationCount (record_product_verification st u p) q =
      storedVerificationCount st q := by
  rw [record_product_verification_frame_eq]
  rfl

theorem storedTotalPoints_update (st : CanisterState) (u : Principal)
    (pts : Nat) (f : Bool) (now : Nat) (h : pts < u32Mod) :
    storedTotalPoints (update_user_rewards st u pts f now) u =
      u32add (storedTotalPoints st u) pts := by
  unfold storedTotalPoints update_user_rewards
  cases hg : pmGet u st.user_rewards with
  | none => simp [hg, pmGet_pmInsert_self, u32add, Nat.mod_eq_of_lt h]
  | some r => simp [hg, pmGet_pmInsert_self]

theorem storedVerificationCount_update (st : CanisterState) (u : Principal)
    (pts : Nat) (f : Bool) (now : Nat) :
    storedVerificationCount (update_user_rewards st u pts f now) u =
      u32add (storedVerificationCount st u) 1 := by
  unfold storedVerificationCount update_user_rewards
  cases hg : pmGet u st.user_rewards with
  | none => simp [hg, pmGet_pmInsert_self, u32add, u32Mod]
  | some r => simp [hg, pmGet_pmInsert_self]

theorem stored_calc_first_points (st : CanisterState) (u p : Principal)
    (now : Nat) (h1 : storedTotalPoints st u + 150 < u32Mod) :
    storedTotalPoints (calculate_verification_rewards st u p
        ProductVerificationStatus.FirstVerification now).2 u =
      storedTotalPoints st u +
        (100 + (if (get_special_promotion st p).isSome then 50 else 0)) := by
  have hM : (150 : Nat) < u32Mod := by norm_num [u32Mod]
  have hM' : (100 : Nat) < u32Mod := by norm_num [u32Mod]
  by_cases hp : (get_special_promotion st p).isSome <;>
    simp only [calculate_verification_rewards, hp, FIRST_VERIFICATION_POINTS,
      SPECIAL_PROMOTION_POINTS] <;>
    norm_num [u32add, u32Mod] <;>
    rw [if_neg (show ¬ (ProductVerificationStatus.FirstVerification =
      ProductVerificationStatus.Invalid) by simp)]
  · rw [storedTotalPoints_update _ _ _ _ _ hM, storedTotalPoints_record]
    have hlt : storedTotalPoints st u + 150 < 4294967296 := by
      simpa [u32Mod] using h1
    simp [u32add, u32Mod, Nat.mod_eq_of_lt hlt]
  · rw [storedTotalPoints_update _ _ _ _ _ hM', storedTotalPoints_record]
    have hlt : storedTotalPoints st u + 100 < 4294967296 := by
      have h1' := h1; simp only [u32Mod] at h1'; omega
    simp [u32add, u32Mod, Nat.mod_eq_of_lt hlt]

theorem stored_calc_first_count (st : CanisterState) (u p : Principal)
    (now : Nat) (h2 : storedVerificationCount st u + 1 < u32Mod) :
    storedVerificationCount (calculate_verification_rewards st u p
        ProductVerificationStatus.FirstVerification now).2 u =
      storedVerificationCount st u + 1 := by
  by_cases hp : (get_special_promotion st p).isSome <;>
    simp only [calculate_verification_rewards, hp, FIRST_VERIFICATION_POINTS,
      SPECIAL_PROMOTION_POINTS] <;>
    norm_num [u32add, u32Mod] <;>
    rw [if_neg (show ¬ (ProductVerificationStatus.FirstVerification =
      ProductVerificationStatus.Invalid) by simp)] <;>
    rw [storedVerificationCount_update, storedVerificationCount_record] <;>
    have hlt : storedVerificationCount st u + 1 < 4294967296 := by
      simpa [u32Mod] using h2
  · simp [u32add, u32Mod, Nat.mod_eq_of_lt hlt]
  · simp [u32add, u32Mod, Nat.mod_eq_of_lt hlt]

/-- C10: a redemption that returns `success = true` re-runs the reward
calculation with its side effects: the caller's stored
`UserRewards.total_points` grows by the recomputed amount (100 base
points plus 50 when a promotion exists for the product) and
`verification_count` grows by 1 — on top of whatever was credited when
the verification itself ran.  (`success = true` is returned only on
this branch of `redeem_product_reward`; the `u32` counters are assumed
not to overflow.) -/
theorem C10_theorem (st : CanisterState) (req : RedeemRewardRequest)
    (caller : Principal) (now : Nat) (pid : Principal)
    (sn : ProductSerialNumber) (prod : Product) (k : Nat)
    (pvec : List ProductVerification) (idx : Nat) (rec : ProductVerification)
    (h_find : findSerialAcrossProducts st.product_serial_numbers req.serial_no =
      some (pid, sn))
    (h_prod : pmGet pid st.products = some prod)
    (h_pk : prod.public_key = .pointBytes k)
    (h_code : req.unique_code =
      .sigHex (ecdsaSign k (.productMsg pid req.serial_no sn.print_version)))
    (h_vec : pmGet pid st.product_verifications = some pvec)
    (h_tgt : findTargetVerification caller req.serial_no sn.print_version pvec =
      some (idx, rec))
    (h_status : rec.status = ProductVerificationStatus.FirstVerification)
    (h_claimed : rec.reward_claimed = false)
    (h_of1 : storedTotalPoints st caller + 150 < u32Mod)
    (h_of2 : storedVerificationCount st caller + 1 < u32Mod) :
    redeemSuccessFlag (redeem_product_reward st req caller now).1 = some true ∧
    storedTotalPoints (redeem_product_reward st req caller now).2 caller =
      storedTotalPoints st caller +
        (100 + (if (get_special_promotion st pid).isSome then 50 else 0)) ∧
    storedVerificationCount (redeem_product_reward st req caller now).2 caller =
      storedVerificationCount st caller + 1 := by
  have hcall1 := redeem_first_call st req caller now pid sn prod k pvec idx
    rec h_find h_prod h_pk h_code h_vec h_tgt h_status h_claimed
  rw [hcall1]
  refine ⟨rfl, ?_, ?_⟩
  · exact stored_calc_first_points st caller pid now h_of1
  · exact stored_calc_first_count st caller pid now h_of2

/-- C10 witness: concrete successful redemption credits 100 points
(no promotion) and one verification. -/
theorem C10_witness :
    redeemSuccessFlag (redeem_product_reward tbStateVer tbRedeemReq 7 1000).1 =
      some true ∧
    storedTotalPoints (redeem_product_reward tbStateVer tbRedeemReq 7 1000).2 7 =
      storedTotalPoints tbStateVer 7 +
        (100 + (if (get_special_promotion tbStateVer 2).isSome then 50 else 0)) ∧
    storedVerificationCount
        (redeem_product_reward tbStateVer tbRedeemReq 7 1000).2 7 =
      storedVerificationCount tbStateVer 7 + 1 :=
  C10_theorem tbStateVer tbRedeemReq 7 1000 2 tbSn tbProd 11 [tbVerRec] 0
    tbVerRec rfl rfl rfl rfl rfl (by decide) rfl rfl (by decide) (by decide)

/-! ## C1 -/

theorem findIdxAndSn_serial (sid : Principal) :
    ∀ (vec : List ProductSerialNumber) (i : Nat) (sn : ProductSerialNumber),
      findIdxAndSn sid vec = some (i, sn) → sn.serial_no = sid := by
  intro vec
  induction vec with
  | nil => intro i sn h; simp [findIdxAndSn] at h
  | cons hd tl ih =>
      intro i sn h
      by_cases hc : hd.serial_no = sid
      · rw [findIdxAndSn, if_pos hc, Option.some_inj, Prod.mk.injEq] at h
        rw [← h.2]
        exact hc
      · rw [findIdxAndSn, if_neg hc] at h
        cases htl : findIdxAndSn sid tl with
        | none => rw [htl] at h; cases h
        | some x =>
            obtain ⟨j, s⟩ := x
            rw [htl, Option.some_inj, Prod.mk.injEq] at h
            rw [← h.2]
            exact ih j s htl

theorem findInList_set (sid : Principal) (w' : ProductSerialNumber)
    (hw' : w'.serial_no = sid) :
    ∀ (vec : List ProductSerialNumber) (i : Nat) (sn : ProductSerialNumber),
      findIdxAndSn sid vec = some (i, sn) →
      findSerialInList sid (vec.set i w') = some w' := by
  intro vec
  induction vec with
  | nil => intro i sn h; simp [findIdxAndSn] at h
  | cons hd tl ih =>
      intro i sn h
      by_cases hc : hd.serial_no = sid
      · rw [findIdxAndSn, if_pos hc, Option.some_inj, Prod.mk.injEq] at h
        obtain ⟨h1, h2⟩ := h
        subst h1
        simp only [List.set]
        rw [findSerialInList, if_pos hw']
      · rw [findIdxAndSn, if_neg hc] at h
        cases htl : findIdxAndSn sid tl with
        | none => rw [htl] at h; cases h
        | some x =>
            obtain ⟨j, s⟩ := x
            rw [htl, Option.some_inj, Prod.mk.injEq] at h
            obtain ⟨h1, h2⟩ := h
            subst h1
            simp only [List.set]
            rw [findSerialInList, if_neg hc]
            exact ih j s htl

theorem findAcross_after_insert (sid pid : Principal)
    (w' : ProductSerialNumber) (hw' : w'.serial_no = sid) :
    ∀ (m : List (Principal × List ProductSerialNumber))
      (sn : ProductSerialNumber) (vec : List ProductSerialNumber) (i : Nat),
      findSerialAcrossProducts m sid = some (pid, sn) →
      pmGet pid m = some vec →
      findIdxAndSn sid vec = some (i, sn) →
      findSerialAcrossProducts (pmInsert pid (vec.set i w') m) sid =
        some (pid, w') := by
  intro m
  induction m with
  | nil => intro sn vec i h1 h2 h3; simp [pmGet] at h2
  | cons hd rest ih =>
      intro sn vec i h1 h2 h3
      obtain ⟨q, wvec⟩ := hd
      by_cases hq : pid = q
      · subst hq
        rw [pmGet, if_pos rfl, Option.some_inj] at h2
        subst h2
        rw [pmInsert, if_pos rfl]
        simp only [findSerialAcrossProducts]
        rw [findInList_set sid w' hw' wvec i sn h3]
      · rw [pmGet, if_neg hq] at h2
        rw [pmInsert, if_neg hq]
        simp only [findSerialAcrossProducts] at h1 ⊢
        cases hw : findSerialInList sid wvec with
        | some x =>
            rw [hw] at h1
            have h1' : (q, x) = (pid, sn) := Option.some.inj h1
            exact absurd (congrArg Prod.fst h1').symm hq
        | none =>
            rw [hw] at h1
            exact ih sn vec i h1 h2 h3

/-- C1: for a serial whose persisted `print_version` is `v`, the unique
code signed over `"{product_id}_{serial_no}_{v}"` with the owning
organization's key verifies with a non-`Invalid` status; one further
print raises the persisted version to `v + 1` (shown by the computed
print result), and verifying the same code afterwards returns status
`Invalid`. -/
theorem C1_theorem
    (st : CanisterState) (caller : Principal) (now : Nat)
    (pid sid : Principal) (v k : Nat) (sn : ProductSerialNumber)
    (vec : List ProductSerialNumber) (i : Nat)
    (prod : Product) (org : Organization)
    (rq_pid : Principal) (rq_pv : Nat) (rq_meta : List Metadata)
    (rq_ts : Option Nat) (rq_nonce : Option String)
    (now2 : Nat) (caller2 : Principal) (now3 : Nat)
    (info1 : RateLimitInfo) (rl1 : List (RateLimitKey × RateLimitEntry))
    (info3 : RateLimitInfo) (rl3 : List (RateLimitKey × RateLimitEntry))
    (h_find : findSerialAcrossProducts st.product_serial_numbers sid =
      some (pid, sn))
    (h_v : sn.print_version = v)
    (h_vec : pmGet pid st.product_serial_numbers = some vec)
    (h_idx : findIdxAndSn sid vec = some (i, sn))
    (h_prod : pmGet pid st.products = some prod)
    (h_org : pmGet prod.org_id st.organizations = some org)
    (h_sk : org.private_key = .scalarBytes k)
    (h_pk : prod.public_key = .pointBytes k)
    (h_v255 : v < 255)
    (h_rl1 : record_verification_attempt st.rate_limits caller pid now =
      .ok (info1, rl1))
    (h_rl3 : record_verification_attempt st.rate_limits caller pid now3 =
      .ok (info3, rl3)) :
    (∃ s, productRespStatus (verify_product_v2 st
        ⟨rq_pid, sid, rq_pv, .sigHex (ecdsaSign k (.productMsg pid sid v)),
         rq_meta, rq_ts, rq_nonce⟩ caller now).1 = some s ∧
      s ≠ ProductVerificationStatus.Invalid) ∧
    print_product_serial_number st pid sid now2 caller2 =
      .ok (⟨.sigHex (ecdsaSign k (.productMsg pid sid (v + 1))), v + 1,
            sn.product_id, sn.serial_no, sn.created_at⟩,
           { st with product_serial_numbers :=
               pmInsert pid (vec.set i { sn with print_version := v + 1, updated_at := now2, updated_by := caller2 }) st.product_serial_numbers }) ∧
    productRespStatus (verify_product_v2
        { st with product_serial_numbers :=
            pmInsert pid (vec.set i { sn with print_version := v + 1, updated_at := now2, updated_by := caller2 }) st.product_serial_numbers }
        ⟨rq_pid, sid, rq_pv, .sigHex (ecdsaSign k (.productMsg pid sid v)),
         rq_meta, rq_ts, rq_nonce⟩ caller now3).1 =
      some ProductVerificationStatus.Invalid := by
  have h_pk' : prod.public_key.parseVerifyingKey = some k := by rw [h_pk]; rfl
  have h_ver1 : ecdsaVerify k (.productMsg pid sid v)
      (ecdsaSign k (.productMsg pid sid v)) = true := by
    simp [ecdsaVerify, ecdsaSign]
  refine ⟨?_, ?_, ?_⟩
  · refine ⟨if is_first_verification_for_user { st with rate_limits := rl1 }
        caller pid then ProductVerificationStatus.FirstVerification
      else ProductVerificationStatus.MultipleVerification, ?_, ?_⟩
    · simp only [verify_product_v2, h_find, h_rl1, h_prod, h_pk', h_v,
        CodeString.hexDecodes, CodeString.parseSignature, h_ver1,
        productRespStatus]
      simp
    · split <;> simp
  · have h255 : u8SaturatingAddOne sn.print_version = v + 1 := by
      rw [h_v, u8SaturatingAddOne, Nat.min_eq_left (by omega : v + 1 ≤ 255)]
    simp only [print_product_serial_number, h_prod, h_org,
      generate_and_store_unique_code_for_serial, h_vec, h_idx, h_sk,
      KeyMaterial.hexDecodes, KeyMaterial.parseSigningKey, h255]
    simp
  · have h_find2 := findAcross_after_insert sid pid
      { sn with print_version := v + 1, updated_at := now2, updated_by := caller2 }
      (findIdxAndSn_serial sid vec i sn h_idx)
      st.product_serial_numbers sn vec i h_find h_vec h_idx
    have h_ver2 : ecdsaVerify k (.productMsg pid sid (v + 1))
        (ecdsaSign k (.productMsg pid sid v)) = false := by
      simp [ecdsaVerify, ecdsaSign]
    simp only [verify_product_v2, h_find2, h_rl3, h_prod, h_pk',
      CodeString.hexDecodes, CodeString.parseSignature, h_ver2,
      productRespStatus]
    simp

/-- Serial `3` of product `2` after the second print. -/
def tbSnPrinted : ProductSerialNumber :=
  { tbSn with print_version := 2, updated_at := 1100, updated_by := 9 }

/-- `tbState` after printing serial `3` of product `2` a second time. -/
def tbStatePrinted : CanisterState :=
  { tbState with product_serial_numbers := pmInsert 2 ([tbSn].set 0 tbSnPrinted) tbState.product_serial_numbers }

/-- C1 witness: concrete round trip — serial `3` of product `2` at
version 1 accepts its code, the print bumps to version 2, and the old
code then verifies `Invalid`. -/
theorem C1_witness :
    tbSn.print_version = 1 ∧ (1 : Nat) < 255 ∧
    productRespStatus (verify_product_v2 tbState
        ⟨2, 3, 1, .sigHex (ecdsaSign 11 (.productMsg 2 3 1)), [], none, none⟩
        7 1000).1 ≠
      some ProductVerificationStatus.Invalid ∧
    print_product_serial_number tbState 2 3 1100 9 =
      .ok (⟨.sigHex (ecdsaSign 11 (.productMsg 2 3 2)), 2,
            tbSn.product_id, tbSn.serial_no, tbSn.created_at⟩,
           tbStatePrinted) ∧
    productRespStatus (verify_product_v2 tbStatePrinted
        ⟨2, 3, 1, .sigHex (ecdsaSign 11 (.productMsg 2 3 1)), [], none, none⟩
        7 1200).1 =
      some ProductVerificationStatus.Invalid := by
  have h := C1_theorem tbState 7 1000 2 3 1 11 tbSn [tbSn] 0 tbProd tbOrg
    2 1 [] none none 1100 9 1200 ⟨4, 1300, 1000⟩
    (rlInsert ⟨7, 2⟩ ⟨7, 2, 1, 1000, 1000⟩ []) ⟨4, 1500, 1200⟩
    (rlInsert ⟨7, 2⟩ ⟨7, 2, 1, 1200, 1200⟩ [])
    rfl rfl rfl rfl rfl rfl rfl rfl (by decide) (by decide) (by decide)
  refine ⟨rfl, by decide, ?_, h.2.1, h.2.2⟩
  obtain ⟨s, hs, hne⟩ := h.1
  rw [hs]
  simpa using hne
